import Mathlib

/-!
Verification of the AfMaayArchive client against its specification.

The repository is a React front end for a community dictionary of Af Maay.
Pure fragments of the client pages (DictionaryPage, TranslatePage,
ConversationPage, AdminPage, App router) are embedded as Lean functions.
The backend HTTP handlers are not part of the excerpt; where a property
depends on them they are modelled from the specification, and each such
definition carries a doc comment starting with "Modelled from the spec:".
-/

namespace AfMaay

/-- Truthiness of a JavaScript string: the empty string is falsy, every
other string is truthy. -/
def jsTruthy (s : String) : Bool := s != ""

/-- Truthiness of a JavaScript value that may be undefined or null
(modelled as none) or a string. -/
def jsTruthyOpt : Option String → Bool
  | none => false
  | some s => jsTruthy s

/-- A dictionary entry as the client renders it and the server stores it
(fields as in the JSON payloads of part_000 and part_003). -/
structure DictionaryEntry where
  entry_id : Nat
  maay_word : String
  english_translation : String
  part_of_speech : String
  sound_group : String
  example_maay : String
  example_english : String
  is_verified : Bool
deriving Repr, DecidableEq

/-- A session identity as exposed by useAuth: the flags read by the pages. -/
structure User where
  is_admin : Bool
  is_contributor : Bool
deriving Repr, DecidableEq

/-- Status of a vocabulary gap. -/
inductive GapStatus
  | pending
  | approved
deriving Repr, DecidableEq

/-- A vocabulary gap record as rendered by VocabularyGapCard in part_003. -/
structure VocabularyGap where
  gap_id : Nat
  english_term : String
  context : String
  domain : String
  frequency : Nat
  suggested_maay : Option String
  status : GapStatus
deriving Repr, DecidableEq

/-- Server-side store shared by the modelled backend operations. -/
structure ServerState where
  entries : List DictionaryEntry
  gaps : List VocabularyGap
  nextId : Nat
deriving Repr, DecidableEq

/-- Error kinds surfaced by the modelled backend operations. -/
inductive ApiError
  | unauthorized
  | notFound
  | validation
deriving Repr, DecidableEq

/- ------------------------------------------------------------------ -/
/- C9: TranslatePage swapLanguages (src/unnamed/part_001, lines 24-29) -/
/- ------------------------------------------------------------------ -/

/-- The four state fields of TranslatePage that swapLanguages touches. -/
structure TranslateState where
  sourceLang : String
  targetLang : String
  sourceText : String
  translatedText : String
deriving Repr, DecidableEq

/-- swapLanguages from TranslatePage: the four setState calls all read the
pre-render values, so the two languages and the two texts are exchanged. -/
def swapLanguages (s : TranslateState) : TranslateState :=
  { sourceLang := s.targetLang
    targetLang := s.sourceLang
    sourceText := s.translatedText
    translatedText := s.sourceText }

/-- C9: swapLanguages is an involution on (sourceLang, targetLang,
sourceText, translatedText); a single application exchanges the two
language selections and the two text fields. -/
theorem C9_swapLanguages_involution :
    (∀ s : TranslateState, swapLanguages (swapLanguages s) = s) ∧
    (∀ s : TranslateState,
      (swapLanguages s).sourceLang = s.targetLang ∧
      (swapLanguages s).targetLang = s.sourceLang ∧
      (swapLanguages s).sourceText = s.translatedText ∧
      (swapLanguages s).translatedText = s.sourceText) := by
  constructor
  · intro s
    rfl
  · intro s
    exact ⟨rfl, rfl, rfl, rfl⟩

/- ------------------------------------------------------------------ -/
/- C6: ConversationPage sendMessage rollback (ConversationPage.jsx)    -/
/- ------------------------------------------------------------------ -/

/-- A chat message as built in ConversationPage.sendMessage. -/
structure ChatMessage where
  role : String
  content : String
  timestamp : String
deriving Repr, DecidableEq

/-- The ConversationPage state fields that sendMessage reads and writes. -/
structure ChatState where
  messages : List ChatMessage
  inputText : String
  loading : Bool
deriving Repr, DecidableEq

/-- Outcome of the POST /chat call made by sendMessage. -/
inductive SendOutcome
  | success (response : String)
  | failure
deriving Repr, DecidableEq

/-- sendMessage from ConversationPage: guard on blank input or an
in-flight send; append the user message optimistically; on success append
the assistant reply, on failure drop the last message (slice(0, -1)). -/
def sendMessage (now : String) (s : ChatState) (outcome : SendOutcome) : ChatState :=
  if s.inputText.trim == "" || s.loading then s
  else
    let userMessage : ChatMessage := { role := "user", content := s.inputText, timestamp := now }
    let appended : ChatState :=
      { s with messages := s.messages ++ [userMessage], inputText := "", loading := true }
    match outcome with
    | .success resp =>
        { appended with
          messages := appended.messages ++ [{ role := "assistant", content := resp, timestamp := now }]
          loading := false }
    | .failure =>
        { appended with messages := appended.messages.dropLast, loading := false }

/-- C6: when the chat send fails, the speculatively appended user message
is removed again, so the message list equals the list before the send. -/
theorem C6_sendMessage_failure_rollback :
    ∀ (now : String) (s : ChatState),
      (sendMessage now s SendOutcome.failure).messages = s.messages := by
  intro now s
  unfold sendMessage
  by_cases h : (s.inputText.trim == "" || s.loading) = true
  · simp [h]
  · simp only [h, if_false, Bool.not_eq_true] at *
    simp [h, List.dropLast_concat]

/- ------------------------------------------------------------------ -/
/- C10: handleSuggestEdit patch building (part_000, lines 453-469)     -/
/- ------------------------------------------------------------------ -/

/-- The SuggestEditDialog form data passed to handleSuggestEdit. -/
structure SuggestForm where
  maay_word : String
  english_translation : String
  reason : String
deriving Repr, DecidableEq

/-- The partial patch posted as the changes object: a field is present
(some) exactly when handleSuggestEdit copied it in. -/
structure Changes where
  maay_word : Option String
  english_translation : Option String
deriving Repr, DecidableEq

/-- The body of POST /dictionary/:id/suggest-edit. -/
structure SuggestEditBody where
  changes : Changes
  reason : String
deriving Repr, DecidableEq

/-- handleSuggestEdit from DictionaryPage (part_000): each field is added
to the changes object only when its submitted value is truthy; the reason
is always sent. -/
def handleSuggestEdit (d : SuggestForm) : SuggestEditBody :=
  { changes :=
      { maay_word := if jsTruthy d.maay_word then some d.maay_word else none
        english_translation :=
          if jsTruthy d.english_translation then some d.english_translation else none }
    reason := d.reason }

/-- C10: the patch includes a field iff its submitted value is non-empty,
never proposes clearing a field to empty, and with both fields empty the
changes object is empty while the reason is still sent. -/
theorem C10_suggest_edit_patch :
    (∀ d : SuggestForm,
      ((handleSuggestEdit d).changes.maay_word ≠ none ↔ d.maay_word ≠ "") ∧
      ((handleSuggestEdit d).changes.english_translation ≠ none ↔ d.english_translation ≠ "")) ∧
    (∀ d : SuggestForm,
      (handleSuggestEdit d).changes.maay_word ≠ some "" ∧
      (handleSuggestEdit d).changes.english_translation ≠ some "") ∧
    (∀ d : SuggestForm, d.maay_word ≠ "" →
      (handleSuggestEdit d).changes.maay_word = some d.maay_word) ∧
    (∀ d : SuggestForm, d.english_translation ≠ "" →
      (handleSuggestEdit d).changes.english_translation = some d.english_translation) ∧
    (∀ d : SuggestForm, d.maay_word = "" → d.english_translation = "" →
      (handleSuggestEdit d).changes = { maay_word := none, english_translation := none } ∧
      (handleSuggestEdit d).reason = d.reason) := by
  refine ⟨?_, ?_, ?_, ?_, ?_⟩
  · intro d
    constructor
    · by_cases h : d.maay_word = "" <;> simp [handleSuggestEdit, jsTruthy, h]
    · by_cases h : d.english_translation = "" <;> simp [handleSuggestEdit, jsTruthy, h]
  · intro d
    constructor
    · by_cases h : d.maay_word = "" <;> simp [handleSuggestEdit, jsTruthy, h]
    · by_cases h : d.english_translation = "" <;> simp [handleSuggestEdit, jsTruthy, h]
  · intro d h
    simp [handleSuggestEdit, jsTruthy, h]
  · intro d h
    simp [handleSuggestEdit, jsTruthy, h]
  · intro d h1 h2
    simp [handleSuggestEdit, jsTruthy, h1, h2]

/-- C10 witness: the characterisation evaluated on a concrete form with a
non-empty word and an empty translation. -/
theorem C10_suggest_edit_patch_witness :
    (handleSuggestEdit { maay_word := "ninki", english_translation := "", reason := "typo" }).changes.maay_word
      = some "ninki" ∧
    (handleSuggestEdit { maay_word := "", english_translation := "", reason := "r" }).changes
      = { maay_word := none, english_translation := none } := by
  constructor
  · exact C10_suggest_edit_patch.2.2.1
      { maay_word := "ninki", english_translation := "", reason := "typo" } (by decide)
  · exact (C10_suggest_edit_patch.2.2.2.2
      { maay_word := "", english_translation := "", reason := "r" } rfl rfl).1

/- ------------------------------------------------------------------ -/
/- C2: verified flag at creation (spec-modelled backend + part_003)    -/
/- ------------------------------------------------------------------ -/

/-- The form data posted by the add-word dialogs and by bulk upload. -/
structure EntryForm where
  maay_word : String
  english_translation : String
  part_of_speech : String
  sound_group : String
  example_maay : String
  example_english : String
deriving Repr, DecidableEq

/-- Modelled from the spec: the backend handler of POST /dictionary is not
in the excerpt. "New entries created by a non-privileged contributor start
in pending; new entries created by a privileged actor (admin, or bulk
import) start in verified directly." The entry is persisted with the
posted fields and the verified flag set from the actor's admin flag. -/
def createEntry (actor : User) (id : Nat) (f : EntryForm) : DictionaryEntry :=
  { entry_id := id
    maay_word := f.maay_word
    english_translation := f.english_translation
    part_of_speech := f.part_of_speech
    sound_group := f.sound_group
    example_maay := f.example_maay
    example_english := f.example_english
    is_verified := actor.is_admin }

/-- Modelled from the spec: a single entry persisted by the bulk-upload
handler of POST /admin/bulk-upload/dictionary, which "always marks entries
verified". -/
def bulkEntry (id : Nat) (f : EntryForm) : DictionaryEntry :=
  { entry_id := id
    maay_word := f.maay_word
    english_translation := f.english_translation
    part_of_speech := f.part_of_speech
    sound_group := f.sound_group
    example_maay := f.example_maay
    example_english := f.example_english
    is_verified := true }

/-- Modelled from the spec: the bulk-upload handler is not in the excerpt;
the client handleBulkUpload (part_003) posts the parsed entries array
unchanged and the server creates every entry verified. -/
def bulkUpload (startId : Nat) : List EntryForm → List DictionaryEntry
  | [] => []
  | f :: fs => bulkEntry startId f :: bulkUpload (startId + 1) fs

/-- C2: an entry created by a non-privileged identity starts unverified,
and every entry created via bulk upload is verified. -/
theorem C2_creation_verified_flag :
    (∀ (actor : User) (id : Nat) (f : EntryForm),
      actor.is_admin = false → (createEntry actor id f).is_verified = false) ∧
    (∀ (startId : Nat) (fs : List EntryForm) (e : DictionaryEntry),
      e ∈ bulkUpload startId fs → e.is_verified = true) := by
  constructor
  · intro actor id f h
    simp [createEntry, h]
  · intro startId fs
    induction fs generalizing startId with
    | nil => intro e he; simp [bulkUpload] at he
    | cons f fs ih =>
        intro e he
        simp only [bulkUpload, List.mem_cons] at he
        cases he with
        | inl h => subst h; rfl
        | inr h => exact ih (startId + 1) e h

/-- C2 witness: a concrete non-admin creation is unverified and a concrete
bulk-uploaded entry is verified. -/
theorem C2_creation_verified_flag_witness :
    (createEntry { is_admin := false, is_contributor := true } 5
      { maay_word := "baabur", english_translation := "car", part_of_speech := "noun",
        sound_group := "b", example_maay := "", example_english := "" }).is_verified = false ∧
    ∀ e ∈ bulkUpload 9
      [{ maay_word := "ninki", english_translation := "the man", part_of_speech := "noun",
         sound_group := "k", example_maay := "", example_english := "" }],
      e.is_verified = true := by
  constructor
  · exact C2_creation_verified_flag.1 { is_admin := false, is_contributor := true } 5
      { maay_word := "baabur", english_translation := "car", part_of_speech := "noun",
        sound_group := "b", example_maay := "", example_english := "" } rfl
  · intro e he
    exact C2_creation_verified_flag.2 9 _ e he

/- ------------------------------------------------------------------ -/
/- C4: creation validation (part_000 WordDialog / AddWordDialog)       -/
/- ------------------------------------------------------------------ -/

/-- Result of the add-word dialog submit handler: either the client-side
validation refuses, or a create request with the form is issued. -/
inductive SubmitAction
  | rejectedValidation
  | requestCreate (f : EntryForm)
deriving Repr, DecidableEq

/-- WordDialog.handleSubmit (part_000) and AddWordDialog.handleSubmit
(DictionaryPage.jsx): refuse when maay_word or english_translation is
falsy, otherwise POST the form to /dictionary. -/
def wordDialogSubmit (f : EntryForm) : SubmitAction :=
  if !jsTruthy f.maay_word || !jsTruthy f.english_translation then
    .rejectedValidation
  else
    .requestCreate f

/-- The whole add-word round trip: the client submit handler followed, on
a issued request only, by the modelled server create. -/
def submitAddWord (actor : User) (s : ServerState) (f : EntryForm) : ServerState :=
  match wordDialogSubmit f with
  | .rejectedValidation => s
  | .requestCreate g =>
      { s with entries := s.entries ++ [createEntry actor s.nextId g], nextId := s.nextId + 1 }

/-- C4: with an empty word or empty translation the client validation
refuses, no create request is issued, and the store is unchanged. -/
theorem C4_empty_fields_rejected :
    ∀ f : EntryForm, f.maay_word = "" ∨ f.english_translation = "" →
      wordDialogSubmit f = SubmitAction.rejectedValidation ∧
      ∀ (actor : User) (s : ServerState), submitAddWord actor s f = s := by
  intro f h
  have hsub : wordDialogSubmit f = SubmitAction.rejectedValidation := by
    cases h with
    | inl h1 => simp [wordDialogSubmit, jsTruthy, h1]
    | inr h2 => simp [wordDialogSubmit, jsTruthy, h2]
  refine ⟨hsub, ?_⟩
  intro actor s
  simp [submitAddWord, hsub]

/-- C4 witness: a concrete form with an empty translation is refused and
persists nothing. -/
theorem C4_empty_fields_rejected_witness :
    wordDialogSubmit
      { maay_word := "baabur", english_translation := "", part_of_speech := "noun",
        sound_group := "", example_maay := "", example_english := "" }
      = SubmitAction.rejectedValidation ∧
    submitAddWord { is_admin := false, is_contributor := false }
      { entries := [], gaps := [], nextId := 0 }
      { maay_word := "baabur", english_translation := "", part_of_speech := "noun",
        sound_group := "", example_maay := "", example_english := "" }
      = { entries := [], gaps := [], nextId := 0 } := by
  have h := C4_empty_fields_rejected
    { maay_word := "baabur", english_translation := "", part_of_speech := "noun",
      sound_group := "", example_maay := "", example_english := "" } (Or.inr rfl)
  exact ⟨h.1, h.2 { is_admin := false, is_contributor := false }
    { entries := [], gaps := [], nextId := 0 }⟩

/- ------------------------------------------------------------------ -/
/- C1: vocabulary gap approval (spec-modelled backend + part_003)      -/
/- ------------------------------------------------------------------ -/

/-- The dictionary entry created when a gap is approved: the candidate as
the source-language word, the gap's English term as the translation,
verified. Part of the spec-modelled approve handler. -/
def newGapEntry (id : Nat) (candidate term : String) : DictionaryEntry :=
  { entry_id := id
    maay_word := candidate
    english_translation := term
    part_of_speech := "noun"
    sound_group := ""
    example_maay := ""
    example_english := ""
    is_verified := true }

/-- Modelled from the spec: the backend handler of
POST /vocabulary-gaps/:id/approve is not in the excerpt. "admin-only;
requires a non-empty candidate already attached; on success, creates a new
verified DictionaryEntry with the candidate as its source-language word
and the gap's English term as the translation, and marks the gap approved.
Approving a gap with no candidate attached is rejected." -/
def approveGap (actor : Option User) (s : ServerState) (gapId : Nat) :
    Except ApiError ServerState :=
  match actor with
  | none => .error .unauthorized
  | some u =>
    if u.is_admin = false then .error .unauthorized
    else
      match s.gaps.find? (fun g => g.gap_id == gapId) with
      | none => .error .notFound
      | some g =>
        match g.suggested_maay with
        | none => .error .validation
        | some c =>
          if c = "" then .error .validation
          else .ok
            { entries := s.entries ++ [newGapEntry s.nextId c g.english_term]
              gaps := s.gaps.map (fun g2 =>
                if g2.gap_id == gapId then { g2 with status := GapStatus.approved } else g2)
              nextId := s.nextId + 1 }

/-- The action offered in the right-hand column of VocabularyGapCard. -/
inductive GapCardAction
  | offerApprove
  | offerSuggest
deriving Repr, DecidableEq

/-- VocabularyGapCard (part_003): the Approve button is rendered when
gap.suggested_maay is truthy, otherwise the Suggest flow is offered. -/
def gapCardAction (g : VocabularyGap) : GapCardAction :=
  if jsTruthyOpt g.suggested_maay then .offerApprove else .offerSuggest

/-- C1: approving a gap whose candidate is absent or empty is rejected
and yields no new state; a successful approval appends exactly one new
verified entry whose word is the candidate and whose translation is the
gap's English term, and marks the gap approved; the client offers the
Approve action iff the gap has a truthy suggested_maay. -/
theorem C1_gap_approval :
    (∀ (actor : Option User) (s : ServerState) (gapId : Nat) (g : VocabularyGap),
      s.gaps.find? (fun g2 => g2.gap_id == gapId) = some g →
      jsTruthyOpt g.suggested_maay = false →
      ∃ err, approveGap actor s gapId = Except.error err) ∧
    (∀ (actor : Option User) (s : ServerState) (gapId : Nat) (s2 : ServerState),
      approveGap actor s gapId = Except.ok s2 →
      ∃ (g : VocabularyGap) (c : String),
        s.gaps.find? (fun g2 => g2.gap_id == gapId) = some g ∧
        g.suggested_maay = some c ∧ c ≠ "" ∧
        s2.entries = s.entries ++ [newGapEntry s.nextId c g.english_term] ∧
        (newGapEntry s.nextId c g.english_term).maay_word = c ∧
        (newGapEntry s.nextId c g.english_term).english_translation = g.english_term ∧
        (newGapEntry s.nextId c g.english_term).is_verified = true ∧
        ∀ g2 ∈ s2.gaps, g2.gap_id = gapId → g2.status = GapStatus.approved) ∧
    (∀ g : VocabularyGap,
      gapCardAction g = GapCardAction.offerApprove ↔ jsTruthyOpt g.suggested_maay = true) := by
  refine ⟨?_, ?_, ?_⟩
  · intro actor s gapId g hfind hfalsy
    cases actor with
    | none => exact ⟨ApiError.unauthorized, rfl⟩
    | some u =>
      by_cases hadm : u.is_admin = false
      · exact ⟨ApiError.unauthorized, by simp [approveGap, hadm]⟩
      · cases hsug : g.suggested_maay with
        | none =>
            exact ⟨ApiError.validation, by simp [approveGap, hadm, hfind, hsug]⟩
        | some c =>
            have hc : c = "" := by
              simpa [jsTruthyOpt, jsTruthy, hsug] using hfalsy
            exact ⟨ApiError.validation, by simp [approveGap, hadm, hfind, hsug, hc]⟩
  · intro actor s gapId s2 hok
    cases actor with
    | none => simp [approveGap] at hok
    | some u =>
      by_cases hadm : u.is_admin = false
      · simp [approveGap, hadm] at hok
      · cases hfind : s.gaps.find? (fun g2 => g2.gap_id == gapId) with
        | none => simp [approveGap, hadm, hfind] at hok
        | some g =>
          cases hsug : g.suggested_maay with
          | none => simp [approveGap, hadm, hfind, hsug] at hok
          | some c =>
            by_cases hc : c = ""
            · simp [approveGap, hadm, hfind, hsug, hc] at hok
            · refine ⟨g, c, rfl, hsug, hc, ?_⟩
              simp [approveGap, hadm, hfind, hsug, hc] at hok
              subst hok
              refine ⟨rfl, rfl, rfl, rfl, ?_⟩
              intro g2 hg2 hid
              simp only [List.mem_map] at hg2
              obtain ⟨g3, _, hg3⟩ := hg2
              by_cases h3 : g3.gap_id = gapId
              · rw [← hg3]
                simp [h3]
              · exfalso
                have : g2 = g3 := by
                  rw [← hg3]
                  simp [h3]
                rw [this] at hid
                exact h3 hid
  · intro g
    by_cases h : jsTruthyOpt g.suggested_maay = true
    · simp [gapCardAction, h]
    · simp [gapCardAction, h]

/-- The concrete post-state of the successful approval used in the C1
witness. -/
def approveGapOkState : ServerState :=
  { entries := [newGapEntry 0 "qalin" "pen"]
    gaps := [{ gap_id := 1, english_term := "pen", context := "", domain := "school",
               frequency := 2, suggested_maay := some "qalin", status := GapStatus.approved }]
    nextId := 1 }

/-- C1 witness: a concrete gap without a candidate is rejected; a concrete
gap with candidate "qalin" is approved, appending the verified entry and
marking the gap approved; the card offers Approve on the latter gap. -/
theorem C1_gap_approval_witness :
    (∃ err, approveGap (some { is_admin := true, is_contributor := false })
      { entries := [],
        gaps := [{ gap_id := 1, english_term := "pen", context := "", domain := "school",
                   frequency := 2, suggested_maay := none, status := GapStatus.pending }],
        nextId := 0 } 1 = Except.error err) ∧
    (∃ (g : VocabularyGap) (c : String),
      ([{ gap_id := 1, english_term := "pen", context := "", domain := "school",
          frequency := 2, suggested_maay := some "qalin", status := GapStatus.pending }] :
        List VocabularyGap).find? (fun g2 => g2.gap_id == 1) = some g ∧
      g.suggested_maay = some c ∧ c ≠ "" ∧
      (approveGapOkState).entries = [] ++ [newGapEntry 0 c g.english_term] ∧
      (newGapEntry 0 c g.english_term).maay_word = c ∧
      (newGapEntry 0 c g.english_term).english_translation = g.english_term ∧
      (newGapEntry 0 c g.english_term).is_verified = true ∧
      ∀ g2 ∈ (approveGapOkState).gaps, g2.gap_id = 1 → g2.status = GapStatus.approved) ∧
    (gapCardAction
        { gap_id := 1, english_term := "pen", context := "", domain := "school",
          frequency := 2, suggested_maay := some "qalin", status := GapStatus.pending }
      = GapCardAction.offerApprove) := by
  refine ⟨?_, ?_, ?_⟩
  · exact C1_gap_approval.1 (some { is_admin := true, is_contributor := false })
      { entries := [],
        gaps := [{ gap_id := 1, english_term := "pen", context := "", domain := "school",
                   frequency := 2, suggested_maay := none, status := GapStatus.pending }],
        nextId := 0 } 1
      { gap_id := 1, english_term := "pen", context := "", domain := "school",
        frequency := 2, suggested_maay := none, status := GapStatus.pending }
      (by decide) (by decide)
  · exact C1_gap_approval.2.1 (some { is_admin := true, is_contributor := false })
      { entries := [],
        gaps := [{ gap_id := 1, english_term := "pen", context := "", domain := "school",
                   frequency := 2, suggested_maay := some "qalin", status := GapStatus.pending }],
        nextId := 0 } 1 approveGapOkState (by rfl)
  · exact (C1_gap_approval.2.2
      { gap_id := 1, english_term := "pen", context := "", domain := "school",
        frequency := 2, suggested_maay := some "qalin", status := GapStatus.pending }).mpr
      (by decide)

/- ------------------------------------------------------------------ -/
/- C7: admin access control (part_003 AdminPage, App.js ProtectedRoute)-/
/- ------------------------------------------------------------------ -/

/-- What the admin route can put on screen. -/
inductive Render
  | loadingView
  | redirectLogin
  | redirectHome
  | accessDenied
  | adminContent
deriving Repr, DecidableEq

/-- AdminPage (part_003): when user?.is_admin is falsy (no session, or a
session without the admin flag) the Access Denied card is rendered,
otherwise the admin panel. -/
def adminPageRender (user : Option User) : Render :=
  match user with
  | none => .accessDenied
  | some u => if u.is_admin then .adminContent else .accessDenied

/-- ProtectedRoute (App.js): show the loading view while the session is
resolving, redirect to login without a session, redirect home when the
route is adminOnly and the user lacks the admin flag, otherwise render the
child. -/
def protectedRouteRender (adminOnly loading : Bool) (user : Option User) (child : Render) :
    Render :=
  if loading then .loadingView
  else
    match user with
    | none => .redirectLogin
    | some u => if adminOnly && !u.is_admin then .redirectHome else child

/-- The /admin route of AppRouter: AdminPage wrapped in an adminOnly
ProtectedRoute. -/
def adminRoute (loading : Bool) (user : Option User) : Render :=
  protectedRouteRender true loading user (adminPageRender user)

/-- Whether an identity is privileged: a session with the admin flag. -/
def isPrivileged : Option User → Bool
  | none => false
  | some u => u.is_admin

/-- C7: a non-privileged identity reaching the admin page gets the Access
Denied state, and through the guarded /admin route it never sees the admin
content whatever the loading state is. -/
theorem C7_admin_access_denied :
    ∀ user : Option User, isPrivileged user = false →
      adminPageRender user = Render.accessDenied ∧
      ∀ loading : Bool, adminRoute loading user ≠ Render.adminContent := by
  intro user h
  constructor
  · cases user with
    | none => rfl
    | some u =>
        have hu : u.is_admin = false := by simpa [isPrivileged] using h
        simp [adminPageRender, hu]
  · intro loading
    cases user with
    | none => cases loading <;> simp [adminRoute, protectedRouteRender]
    | some u =>
        have hu : u.is_admin = false := by simpa [isPrivileged] using h
        cases loading <;> simp [adminRoute, protectedRouteRender, adminPageRender, hu]

/-- C7 witness: a signed-in non-admin user gets Access Denied and never
the admin content. -/
theorem C7_admin_access_denied_witness :
    adminPageRender (some { is_admin := false, is_contributor := true }) = Render.accessDenied ∧
    adminRoute false (some { is_admin := false, is_contributor := true })
      ≠ Render.adminContent := by
  have h := C7_admin_access_denied (some { is_admin := false, is_contributor := true }) rfl
  exact ⟨h.1, h.2 false⟩

/- ------------------------------------------------------------------ -/
/- C8: voice search transcription (part_000, DictionaryPage.jsx)       -/
/- ------------------------------------------------------------------ -/

/-- handleVoiceSearch onstop handler: when the transcription response has
truthy text it becomes the search query (setSearchQuery(response.data.text)),
otherwise the query state is left as it was. -/
def voiceSearchQuery (prevQuery : String) (transcribed : Option String) : String :=
  match transcribed with
  | some t => if jsTruthy t then t else prevQuery
  | none => prevQuery

/-- C8 counterexample: with prior query "hello" and an empty transcription,
the query stays "hello" instead of becoming the transcribed empty string,
so the transcription is not used verbatim in every case. -/
theorem C8_voice_search_counterexample :
    ¬ (voiceSearchQuery "hello" (some "") = "") := by
  decide

/-- C8 (amended): a non-empty transcription is used verbatim as the free-
text query; an empty or absent transcription leaves the query unchanged. -/
theorem C8_voice_search_verbatim :
    (∀ (prev t : String), t ≠ "" → voiceSearchQuery prev (some t) = t) ∧
    (∀ prev : String,
      voiceSearchQuery prev (some "") = prev ∧ voiceSearchQuery prev none = prev) := by
  constructor
  · intro prev t h
    simp [voiceSearchQuery, jsTruthy, h]
  · intro prev
    exact ⟨rfl, rfl⟩

/-- C8 witness: the transcription "baabur" replaces the prior query. -/
theorem C8_voice_search_verbatim_witness :
    voiceSearchQuery "hello" (some "baabur") = "baabur" := by
  exact C8_voice_search_verbatim.1 "hello" "baabur" (by decide)

/- ------------------------------------------------------------------ -/
/- C3: search composer (fetchEntries in part_000 / DictionaryPage.jsx, -/
/-     server filtering modelled from the spec)                        -/
/- ------------------------------------------------------------------ -/

/-- An HTTP request as issued by the client. -/
structure HttpRequest where
  path : String
  params : List (String × String)
deriving Repr, DecidableEq

/-- The URLSearchParams built by fetchEntries: search only for a truthy
query, language only when not "both", sound_group only when a group is
selected, verified_only=true only when toggled, appended in this order. -/
def fetchParams (searchQuery searchLanguage soundGroupFilter : String) (verifiedOnly : Bool) :
    List (String × String) :=
  (if jsTruthy searchQuery then [("search", searchQuery)] else []) ++
  (if searchLanguage != "both" then [("language", searchLanguage)] else []) ++
  (if jsTruthy soundGroupFilter then [("sound_group", soundGroupFilter)] else []) ++
  (if verifiedOnly then [("verified_only", "true")] else [])

/-- fetchEntries from DictionaryPage: one single GET on /dictionary
carrying the composed parameters. -/
def fetchEntries (searchQuery searchLanguage soundGroupFilter : String) (verifiedOnly : Bool) :
    List HttpRequest :=
  [{ path := "/dictionary"
     params := fetchParams searchQuery searchLanguage soundGroupFilter verifiedOnly }]

/-- Whether the needle occurs as a contiguous sublist of the haystack. -/
def occursIn (needle : List Char) : List Char → Bool
  | [] => needle.isEmpty
  | c :: t => needle.isPrefixOf (c :: t) || occursIn needle t

/-- Substring test used by the modelled server-side text match. -/
def containsSub (hay q : String) : Bool := occursIn q.toList hay.toList

/-- Modelled from the spec: "Text matching is substring/fuzzy against
whichever language side(s) are selected; when both, a match on either the
source word or the English translation qualifies." The language values are
the ones the client sends ("maay", "en", absent for both). -/
def textMatches (language : Option String) (q : String) (e : DictionaryEntry) : Bool :=
  match language with
  | some "maay" => containsSub e.maay_word q
  | some "en" => containsSub e.english_translation q
  | _ => containsSub e.maay_word q || containsSub e.english_translation q

/-- Modelled from the spec: the backend GET /dictionary handler is not in
the excerpt. "Filters are conjunctive: all active filters must hold
simultaneously." An entry passes when every parameter present in the
request holds of it. -/
def entryMatches (ps : List (String × String)) (e : DictionaryEntry) : Bool :=
  (match ps.lookup "search" with
   | none => true
   | some q => textMatches (ps.lookup "language") q e) &&
  (match ps.lookup "sound_group" with
   | none => true
   | some sg => e.sound_group == sg) &&
  (match ps.lookup "verified_only" with
   | none => true
   | some _ => e.is_verified)

/-- Modelled from the spec: the search endpoint filters the permission-
scoped entry collection by the conjunction of the active filters. -/
def searchDictionary (visible : List DictionaryEntry) (ps : List (String × String)) :
    List DictionaryEntry :=
  visible.filter (entryMatches ps)

/-- C3: fetchEntries issues a single request; its parameter set contains
exactly the active filters; with an empty query and no filters the whole
scoped collection comes back; and membership in a result is the
conjunction of the active filters. -/
theorem C3_search_composer :
    (∀ (q lang sg : String) (vo : Bool), (fetchEntries q lang sg vo).length = 1) ∧
    (∀ (q lang sg : String) (vo : Bool) (k v : String),
      (k, v) ∈ fetchParams q lang sg vo ↔
        ((k = "search" ∧ v = q ∧ q ≠ "") ∨
         (k = "language" ∧ v = lang ∧ lang ≠ "both") ∨
         (k = "sound_group" ∧ v = sg ∧ sg ≠ "") ∨
         (k = "verified_only" ∧ v = "true" ∧ vo = true))) ∧
    (∀ visible : List DictionaryEntry,
      searchDictionary visible (fetchParams "" "both" "" false) = visible) ∧
    (∀ (visible : List DictionaryEntry) (ps : List (String × String)) (e : DictionaryEntry),
      e ∈ searchDictionary visible ps ↔
        e ∈ visible ∧
        (∀ q, ps.lookup "search" = some q → textMatches (ps.lookup "language") q e = true) ∧
        (∀ sg, ps.lookup "sound_group" = some sg → e.sound_group = sg) ∧
        (ps.lookup "verified_only" ≠ none → e.is_verified = true)) := by
  refine ⟨?_, ?_, ?_, ?_⟩
  · intro q lang sg vo
    rfl
  · intro q lang sg vo k v
    by_cases hq : q = "" <;> by_cases hl : lang = "both" <;> by_cases hs : sg = "" <;>
      cases vo <;>
      simp [fetchParams, jsTruthy, hq, hl, hs]
  · intro visible
    have hps : fetchParams "" "both" "" false = [] := rfl
    rw [hps]
    apply List.filter_eq_self.mpr
    intro e _
    rfl
  · intro visible ps e
    constructor
    · intro h
      have hmem := List.mem_filter.mp h
      have hm := hmem.2
      simp only [entryMatches, Bool.and_eq_true] at hm
      refine ⟨hmem.1, ?_, ?_, ?_⟩
      · intro q hq
        have := hm.1.1
        rw [hq] at this
        exact this
      · intro sg hsg
        have := hm.1.2
        rw [hsg] at this
        exact beq_iff_eq.mp this
      · intro hvo
        have := hm.2
        cases hlook : ps.lookup "verified_only" with
        | none => exact absurd hlook hvo
        | some x => rw [hlook] at this; exact this
    · intro ⟨hmem, hsearch, hsound, hver⟩
      apply List.mem_filter.mpr
      refine ⟨hmem, ?_⟩
      simp only [entryMatches, Bool.and_eq_true]
      refine ⟨⟨?_, ?_⟩, ?_⟩
      · cases hlook : ps.lookup "search" with
        | none => rfl
        | some q => exact hsearch q hlook
      · cases hlook : ps.lookup "sound_group" with
        | none => rfl
        | some sg => exact beq_iff_eq.mpr (hsound sg hlook)
      · cases hlook : ps.lookup "verified_only" with
        | none => rfl
        | some x => exact hver (by simp [hlook])

/-- C3 witness: the characterisation evaluated on a concrete query and on
a concrete two-entry collection with only the verified filter active. -/
theorem C3_search_composer_witness :
    (fetchEntries "bar" "maay" "" true).length = 1 ∧
    (("language", "maay") ∈ fetchParams "bar" "maay" "" true ↔
      (("language" : String) = "search" ∧ ("maay" : String) = "bar" ∧ ("bar" : String) ≠ "") ∨
      (("language" : String) = "language" ∧ ("maay" : String) = "maay" ∧ ("maay" : String) ≠ "both") ∨
      (("language" : String) = "sound_group" ∧ ("maay" : String) = "" ∧ ("" : String) ≠ "") ∨
      (("language" : String) = "verified_only" ∧ ("maay" : String) = "true" ∧ True = True)) ∧
    searchDictionary [newGapEntry 3 "qalin" "pen"] (fetchParams "" "both" "" false)
      = [newGapEntry 3 "qalin" "pen"] := by
  refine ⟨C3_search_composer.1 "bar" "maay" "" true, ?_, C3_search_composer.2.2.1 _⟩
  have h := C3_search_composer.2.1 "bar" "maay" "" true "language" "maay"
  constructor
  · intro hmem
    rcases h.mp hmem with h1 | h2 | h3 | h4
    · exact Or.inl h1
    · exact Or.inr (Or.inl h2)
    · exact Or.inr (Or.inr (Or.inl h3))
    · exact Or.inr (Or.inr (Or.inr ⟨h4.1, h4.2.1, rfl⟩))
  · intro hcases
    apply h.mpr
    rcases hcases with h1 | h2 | h3 | h4
    · exact Or.inl h1
    · exact Or.inr (Or.inl h2)
    · exact Or.inr (Or.inr (Or.inl h3))
    · exact Or.inr (Or.inr (Or.inr ⟨h4.1, h4.2.1, rfl⟩))

/- ------------------------------------------------------------------ -/
/- C5: debounced re-querying (part_000 / DictionaryPage.jsx effects)   -/
/- ------------------------------------------------------------------ -/

/-- The two re-query triggers of DictionaryPage: a change of the text
query (keystroke) and a change of the language, sound-group or
verified-only filter. Each event carries its time in milliseconds. -/
inductive UiEvent
  | keystroke (t : Nat)
  | filterChange (t : Nat)
deriving Repr, DecidableEq

/-- The timer state of the query-change effect: the fire time of the
pending setTimeout, if one is scheduled, and the number of fetchEntries
calls issued so far. -/
structure DebounceState where
  pendingFire : Option Nat
  requests : Nat
deriving Repr, DecidableEq

/-- The delay (in ms) passed to setTimeout by the query effect. -/
def debounceDelay : Nat := 300

/-- Let a pending timer whose fire time has arrived by time t fire,
issuing its fetch; a timer scheduled for later is untouched. -/
def fireDue (t : Nat) (s : DebounceState) : DebounceState :=
  match s.pendingFire with
  | some ft => if ft ≤ t then { pendingFire := none, requests := s.requests + 1 } else s
  | none => s

/-- One UI event: a keystroke runs the query effect cleanup (clearTimeout
of a still-pending timer) and schedules a new timer at t + delay; a filter
change runs the filter effect, which calls fetchEntries at once and does
not touch the query timer. -/
def stepEvent (delay : Nat) (s : DebounceState) : UiEvent → DebounceState
  | .keystroke t =>
      let s2 := fireDue t s
      { s2 with pendingFire := some (t + delay) }
  | .filterChange t =>
      let s2 := fireDue t s
      { s2 with requests := s2.requests + 1 }

/-- Requests observed once all time has passed: a still-pending timer
eventually fires. -/
def flushCount (s : DebounceState) : Nat :=
  s.requests + (match s.pendingFire with | some _ => 1 | none => 0)

/-- Total number of search requests issued by a trace of UI events. -/
def runUi (delay : Nat) (events : List UiEvent) : Nat :=
  flushCount (events.foldl (stepEvent delay) { pendingFire := none, requests := 0 })

/-- Each keystroke arrives strictly within the quiescence window of the
previous one. -/
def rapidChain (delay : Nat) : List Nat → Bool
  | t1 :: t2 :: rest => (t2 < t1 + delay) && rapidChain delay (t2 :: rest)
  | _ => true

theorem rapidFoldCount (delay : Nat) :
    ∀ (ts : List Nat) (t r : Nat), rapidChain delay (t :: ts) = true →
      flushCount ((ts.map UiEvent.keystroke).foldl (stepEvent delay)
        { pendingFire := some (t + delay), requests := r }) = r + 1 := by
  intro ts
  induction ts with
  | nil =>
      intro t r _
      rfl
  | cons t2 rest ih =>
      intro t r hchain
      have h12 : t2 < t + delay := by
        simp only [rapidChain, Bool.and_eq_true, decide_eq_true_eq] at hchain
        exact hchain.1
      have htail : rapidChain delay (t2 :: rest) = true := by
        simp only [rapidChain, Bool.and_eq_true] at hchain
        exact hchain.2
      have hstep : stepEvent delay { pendingFire := some (t + delay), requests := r }
          (UiEvent.keystroke t2) = { pendingFire := some (t2 + delay), requests := r } := by
        have hnot : ¬ (t + delay ≤ t2) := Nat.not_le.mpr h12
        simp [stepEvent, fireDue, hnot]
      simp only [List.map_cons, List.foldl_cons, hstep]
      exact ih t2 r htail

/-- C5: a filter change issues its request at the very event that changes
the filter; a keystroke by itself issues none at that moment; and a
non-empty burst of keystrokes, each within the quiescence window of the
previous one, yields exactly one search request in total, not one per
keystroke. -/
theorem C5_debounced_requery :
    (∀ (s : DebounceState) (t : Nat),
      (stepEvent debounceDelay s (UiEvent.filterChange t)).requests
        = (fireDue t s).requests + 1) ∧
    (∀ (s : DebounceState) (t : Nat),
      (stepEvent debounceDelay s (UiEvent.keystroke t)).requests
        = (fireDue t s).requests) ∧
    (∀ (t : Nat) (ts : List Nat), rapidChain debounceDelay (t :: ts) = true →
      runUi debounceDelay ((t :: ts).map UiEvent.keystroke) = 1) := by
  refine ⟨?_, ?_, ?_⟩
  · intro s t
    rfl
  · intro s t
    rfl
  · intro t ts hchain
    have hfirst : stepEvent debounceDelay { pendingFire := none, requests := 0 }
        (UiEvent.keystroke t) = { pendingFire := some (t + debounceDelay), requests := 0 } := by
      rfl
    simp only [runUi, List.map_cons, List.foldl_cons, hfirst]
    exact rapidFoldCount debounceDelay ts t 0 hchain

/-- C5 witness: four keystrokes 100 ms apart issue one single request,
while a filter change issues its request immediately. -/
theorem C5_debounced_requery_witness :
    (stepEvent debounceDelay { pendingFire := none, requests := 0 }
      (UiEvent.filterChange 50)).requests
      = (fireDue 50 { pendingFire := none, requests := 0 }).requests + 1 ∧
    runUi debounceDelay ([1000, 1100, 1200, 1300].map UiEvent.keystroke) = 1 := by
  constructor
  · exact C5_debounced_requery.1 { pendingFire := none, requests := 0 } 50
  · exact C5_debounced_requery.2.2 1000 [1100, 1200, 1300] (by decide)

end AfMaay
